import Mathlib

/-
A shallow embedding of the request handler in src/server.js.

Modelling conventions:
* JS numbers are modelled as rationals (ℚ); the inputs exercised by the
  specification are ordinary finite decimal numbers, where float and
  rational arithmetic agree.  NaN-producing paths are avoided because the
  embedding restricts record fields to typed values (string fields hold
  strings, numeric fields hold numbers), matching the payload shapes the
  specification describes.
* The two external collaborators (the DynamoDB document client and the
  Cognito identity service) are modelled by a `Config` record holding the
  outcome of each call: `getUser` maps a token to the verifier outcome,
  and each put/scan carries an `Except String Unit` outcome whose error
  string is the thrown error message.  The store itself is a `Store`
  value threaded through the handlers; a successful put appends the
  record and a failing put raises without mutating.
* A JS exception is an `Except.error` carrying the error message.
  Handlers return `Except String Response`; the dispatcher catch turns an
  escaping error into the 500 result, mirroring lines 56-66.
* A `Trace` records which collaborator calls were reached during one
  request, so that claims of the form "the verifier is never invoked" or
  "the put is never invoked" are statable.
* `JSON.parse` of the raw body is modelled by `Event.body : Except String
  ParsedBody`: a malformed body is the `.error` case carrying the parse
  error message, a well-formed one is the parsed record.  `ParsedBody`
  has the fields the two handlers destructure; an absent field is `none`.
-/

set_option maxRecDepth 4096

namespace CloudBackend

/-- Response header values: strings, and the boolean `true` used by
`Access-Control-Allow-Credentials`. -/
inductive HVal where
  | str (v : String)
  | bool (v : Bool)
deriving DecidableEq

/-- The persisted product record built at lines 99-106. -/
structure ProductRecord where
  id : String
  name : String
  price : ℚ
  description : String
  imageUrl : Option String
  createdAt : String
deriving DecidableEq

/-- One normalized order line, built by the map at lines 177-182. -/
structure OrderLine where
  id : String
  quantity : ℚ
  price : ℚ
  totalPrice : ℚ
deriving DecidableEq

/-- The persisted order record built at lines 174-185. -/
structure OrderRecord where
  id : String
  userId : String
  items : List OrderLine
  createdAt : String
  status : String
deriving DecidableEq

/-- Structured response bodies (the JSON values passed to
`JSON.stringify`). -/
inductive RespBody where
  | emptyObj
  | errMsg (error : String)
  | errDetails (error details : String)
  | product (p : ProductRecord)
  | productList (ps : List ProductRecord)
  | order (o : OrderRecord)
  | orderList (os : List OrderRecord)
deriving DecidableEq

/-- The result shape every handler returns. -/
structure Response where
  statusCode : Nat
  headers : List (String × HVal)
  body : RespBody
deriving DecidableEq

/-- The CORS base headers of lines 10-14. -/
def headers : List (String × HVal) :=
  [("Access-Control-Allow-Origin", .str "*"),
   ("Access-Control-Allow-Credentials", .bool true),
   ("Content-Type", .str "application/json")]

/-- The augmented preflight header set of lines 22-26. -/
def preflightHeaders : List (String × HVal) :=
  headers ++
  [("Access-Control-Allow-Methods", .str "GET,POST,PUT,DELETE,OPTIONS"),
   ("Access-Control-Allow-Headers",
    .str "Content-Type,X-Amz-Date,Authorization,X-Api-Key,X-Amz-Security-Token")]

/-- A response carrying the base header set. -/
def mkResp (code : Nat) (b : RespBody) : Response :=
  { statusCode := code, headers := headers, body := b }

/-- One raw element of the submitted items array.  An absent field is
`none`; `id` holds the string case, `quantity` and `price` the numeric
case. -/
structure ItemInput where
  id : Option String
  quantity : Option ℚ
  price : Option ℚ
deriving DecidableEq

/-- The `items` field of a parsed order body: absent (or another falsy
value), present but not an array, or an array. -/
inductive ItemsField where
  | absent
  | notArray
  | arr (l : List ItemInput)
deriving DecidableEq

/-- A successfully parsed request body, with the fields the two creation
handlers destructure. -/
structure ParsedBody where
  name : Option String := none
  price : Option ℚ := none
  description : Option String := none
  imageUrl : Option String := none
  items : ItemsField := .absent
deriving DecidableEq

/-- The Lambda event: method, resource path, header map (exact keys, as
JS property access is exact), and the outcome of parsing the raw body. -/
structure Event where
  httpMethod : String
  resource : String
  headers : List (String × String) := []
  body : Except String ParsedBody := .error "Unexpected end of JSON input"

/-- The user record returned by `cognitoIdentityServiceProvider.getUser`. -/
structure CognitoUser where
  Username : String
deriving DecidableEq

/-- Outcomes of the external collaborator calls for one request, plus the
generated uuid and timestamp. -/
structure Config where
  getUser : String → Except String CognitoUser
  putProductResult : Except String Unit := .ok ()
  putOrderResult : Except String Unit := .ok ()
  scanProductsResult : Except String Unit := .ok ()
  scanOrdersResult : Except String Unit := .ok ()
  newUuid : String := "uuid-1"
  now : String := "2026-01-01T00:00:00.000Z"

/-- The two DynamoDB tables. -/
structure Store where
  products : List ProductRecord := []
  orders : List OrderRecord := []
deriving DecidableEq

/-- Which collaborator calls were reached while handling one request. -/
structure Trace where
  verifierCalled : Bool := false
  putProductCalled : Bool := false
  putOrderCalled : Bool := false
  scanProductsCalled : Bool := false
  scanOrdersCalled : Bool := false
deriving DecidableEq

/-- JS truthiness for a string-or-undefined value: the empty string and
undefined are falsy. -/
def truthyStr : Option String → Bool
  | none => false
  | some s => s != ""

/-- JS truthiness for a number-or-undefined value: 0 and undefined are
falsy. -/
def truthyNum : Option ℚ → Bool
  | none => false
  | some q => q != 0

/-- JS `a || b` on string-or-undefined values: `a` wins when truthy. -/
def jsOrStr (a b : Option String) : Option String :=
  match a with
  | some s => if s = "" then b else some s
  | none => b

/-- JS `x || 0` on a number-or-undefined value. -/
def jsOrZero : Option ℚ → ℚ
  | none => 0
  | some q => if q = 0 then 0 else q

/-- The whitespace class matched by the regex `\s` (ASCII part). -/
def isJsSpace (c : Char) : Bool :=
  c = ' ' || c = '\t' || c = '\n' || c = '\r' || c = '\x0b' || c = '\x0c'

/-- ASCII lower-casing of one character (the only case the bearer regex
needs; the scheme letters are ASCII). -/
def asciiLower (c : Char) : Char :=
  if 65 ≤ c.toNat && c.toNat ≤ 90 then Char.ofNat (c.toNat + 32) else c

/-- ASCII lower-casing of a string. -/
def lowerStr (s : String) : String := String.mk (s.data.map asciiLower)

/-- `s.startsWith(p)` for our strings. -/
def strStarts (s p : String) : Bool := s.take p.length == p

/-- `authHeader.replace(regexBearer, emptyString)` at line 146: remove a
leading case-insensitive `Bearer` followed by one or more whitespace
characters; leave the string unchanged when the pattern does not match. -/
def stripBearer (s : String) : String :=
  if lowerStr (s.take 6) == "bearer" && ((s.drop 6).data.take 1).any isJsSpace then
    String.mk ((s.drop 6).data.dropWhile isJsSpace)
  else s

/-- Line 136: `event.headers?.Authorization || event.headers?.authorization`.
Property access is by exact key. -/
def authHeaderVal (e : Event) : Option String :=
  jsOrStr (e.headers.lookup "Authorization") (e.headers.lookup "authorization")

/-- Lines 136-146 condensed: `some token` when the header is present,
truthy and starts with the case-sensitive prefix `Bearer `; the token is
the header with the bearer scheme stripped. -/
def bearerCheck (e : Event) : Option String :=
  match authHeaderVal e with
  | none => none
  | some s => if s = "" then none
              else if strStarts s "Bearer " then some (stripBearer s)
              else none

/-- `verifyToken` at lines 70-84: an empty token raises, the verifier
outcome is consulted otherwise, and every failure is rethrown with the
message prefixed by `Invalid token: `. -/
def verifyToken (cfg : Config) (token : String) : Except String CognitoUser :=
  if token = "" then .error ("Invalid token: " ++ "Error: No token provided")
  else
    match cfg.getUser token with
    | .ok u => .ok u
    | .error m => .error ("Invalid token: " ++ m)

/-- The per-item rejection test at line 165:
`!item.id || !item.quantity || item.quantity <= 0`. -/
def itemInvalid (i : ItemInput) : Bool :=
  !truthyStr i.id || !truthyNum i.quantity || decide (i.quantity.getD 0 ≤ 0)

/-- The normalization map of lines 177-182.  It is only reached for items
that passed validation, so `id` and `quantity` are present there. -/
def normalizeItem (i : ItemInput) : OrderLine :=
  { id := i.id.getD "",
    quantity := i.quantity.getD 0,
    price := jsOrZero i.price,
    totalPrice := jsOrZero i.price * i.quantity.getD 0 }

/-- The body of the try block at lines 147-196: verification, body parse,
items validation, order construction and persistence.  An `.error` is an
exception reaching the catch at line 197. -/
def createOrderTry (cfg : Config) (st : Store) (token : String)
    (body : Except String ParsedBody) :
    Except String (Response × Store) × Trace :=
  match verifyToken cfg token with
  | .error m => (.error m, { verifierCalled := true })
  | .ok user =>
    match body with
    | .error m => (.error m, { verifierCalled := true })
    | .ok b =>
      match b.items with
      | .absent =>
          (.ok (mkResp 400 (.errMsg "Items array is required"), st),
           { verifierCalled := true })
      | .notArray =>
          (.ok (mkResp 400 (.errMsg "Items array is required"), st),
           { verifierCalled := true })
      | .arr l =>
        if l.isEmpty then
          (.ok (mkResp 400 (.errMsg "Items array is required"), st),
           { verifierCalled := true })
        else if l.any itemInvalid then
          (.ok (mkResp 400
             (.errMsg "Each item must have productId and positive quantity"), st),
           { verifierCalled := true })
        else
          let ord : OrderRecord :=
            { id := cfg.newUuid,
              userId := user.Username,
              items := l.map normalizeItem,
              createdAt := cfg.now,
              status := "pending" }
          match cfg.putOrderResult with
          | .error m =>
              (.error m, { verifierCalled := true, putOrderCalled := true })
          | .ok _ =>
              (.ok (mkResp 201 (.order ord),
                    { st with orders := st.orders ++ [ord] }),
               { verifierCalled := true, putOrderCalled := true })

/-- `createOrder` at lines 134-204: the bearer-scheme gate, then the try
block whose catch converts any raised error into the 401 Unauthorized
response.  The function never raises. -/
def createOrder (cfg : Config) (st : Store) (e : Event) :
    Response × Store × Trace :=
  match bearerCheck e with
  | none => (mkResp 401 (.errMsg "Authorization token required"), st, {})
  | some token =>
    match createOrderTry cfg st token e.body with
    | (.ok (r, st2), tr) => (r, st2, tr)
    | (.error m, tr) => (mkResp 401 (.errDetails "Unauthorized" m), st, tr)

/-- `createProduct` at lines 87-118.  The `JSON.parse` failure and a put
failure raise out of the function (`.error`). -/
def createProduct (cfg : Config) (st : Store) (e : Event) :
    Except String Response × Store × Trace :=
  match e.body with
  | .error m => (.error m, st, {})
  | .ok b =>
    if !truthyStr b.name || !truthyNum b.price || !truthyStr b.description then
      (.ok (mkResp 400 (.errMsg "Missing name, price, or description")), st, {})
    else
      let p : ProductRecord :=
        { id := cfg.newUuid,
          name := b.name.getD "",
          price := b.price.getD 0,
          description := b.description.getD "",
          imageUrl := if truthyStr b.imageUrl then b.imageUrl else none,
          createdAt := cfg.now }
      match cfg.putProductResult with
      | .error m => (.error m, st, { putProductCalled := true })
      | .ok _ =>
          (.ok (mkResp 201 (.product p)),
           { st with products := st.products ++ [p] },
           { putProductCalled := true })

/-- `getAllProducts` at lines 121-131: scan and return every record. -/
def getAllProducts (cfg : Config) (st : Store) :
    Except String Response × Store × Trace :=
  match cfg.scanProductsResult with
  | .error m => (.error m, st, { scanProductsCalled := true })
  | .ok _ =>
      (.ok (mkResp 200 (.productList st.products)), st,
       { scanProductsCalled := true })

/-- `getAllOrders` at lines 207-217: scan and return every record. -/
def getAllOrders (cfg : Config) (st : Store) :
    Except String Response × Store × Trace :=
  match cfg.scanOrdersResult with
  | .error m => (.error m, st, { scanOrdersCalled := true })
  | .ok _ =>
      (.ok (mkResp 200 (.orderList st.orders)), st,
       { scanOrdersCalled := true })

/-- The preflight short-circuit response of lines 19-29. -/
def preflightResp : Response :=
  { statusCode := 200, headers := preflightHeaders, body := .emptyObj }

/-- The 404 result of lines 49-55. -/
def notFoundResp : Response := mkResp 404 (.errMsg "Not found")

/-- The dispatcher `exports.handler` at lines 16-67: preflight
short-circuit, the four-entry route table, the 404 fallthrough, and the
top-level catch converting an escaping error into the 500 result. -/
def handler (cfg : Config) (st : Store) (e : Event) :
    Response × Store × Trace :=
  if e.httpMethod = "OPTIONS" then (preflightResp, st, {})
  else
    let routed : Except String Response × Store × Trace :=
      if e.httpMethod = "POST" ∧ e.resource = "/products" then
        createProduct cfg st e
      else if e.httpMethod = "GET" ∧ e.resource = "/products" then
        getAllProducts cfg st
      else if e.httpMethod = "POST" ∧ e.resource = "/orders" then
        match createOrder cfg st e with
        | (r, st2, tr) => (.ok r, st2, tr)
      else if e.httpMethod = "GET" ∧ e.resource = "/orders" then
        getAllOrders cfg st
      else (.ok notFoundResp, st, {})
    match routed with
    | (.ok r, st2, tr) => (r, st2, tr)
    | (.error m, st2, tr) =>
        (mkResp 500 (.errDetails "Internal server error" m), st2, tr)

end CloudBackend

/-! ## General lemmas about the embedding -/

namespace CloudBackend

/-- The gate of lines 137-143 fails exactly when the header is missing,
falsy, or lacks the case-sensitive bearer scheme. -/
theorem bearerCheck_eq_none {e : Event}
    (h : authHeaderVal e = none ∨
         ∃ s, authHeaderVal e = some s ∧ strStarts s "Bearer " = false) :
    bearerCheck e = none := by
  rcases h with h | ⟨s, hs, hpre⟩
  · simp [bearerCheck, h]
  · simp [bearerCheck, hs, hpre]

/-- The rejection test of line 165, restated as a proposition. -/
theorem itemInvalid_eq_true_iff (i : ItemInput) :
    itemInvalid i = true ↔
      (truthyStr i.id = false ∨ i.quantity = none ∨ i.quantity.getD 0 ≤ 0) := by
  rcases i with ⟨id, qty, pr⟩
  rcases qty with _ | q
  · simp [itemInvalid, truthyNum]
  · simp only [itemInvalid, truthyNum, Bool.or_eq_true, Bool.not_eq_true']
    constructor
    · rintro ((h | h) | h)
      · exact Or.inl h
      · right; right; simp only [bne_eq_false_iff_eq] at h; simp [h]
      · right; right; simpa using h
    · rintro (h | h | h)
      · exact Or.inl (Or.inl h)
      · exact absurd h (by simp)
      · right; simpa using h

/-- The acceptance side of line 165: an item survives the loop exactly
when its id is a non-empty string and its quantity a positive number. -/
theorem itemInvalid_eq_false_iff (i : ItemInput) :
    itemInvalid i = false ↔
      ((∃ s, i.id = some s ∧ s ≠ "") ∧ ∃ q, i.quantity = some q ∧ 0 < q) := by
  rcases i with ⟨id, qty, pr⟩
  rcases qty with _ | q
  · simp [itemInvalid, truthyNum]
  · rcases id with _ | s
    · simp [itemInvalid, truthyStr]
    · simp only [itemInvalid, truthyStr, truthyNum, Bool.or_eq_false_iff,
        Bool.not_eq_false', decide_eq_false_iff_not, not_le, bne_iff_ne]
      constructor
      · rintro ⟨⟨h1, _⟩, h3⟩
        exact ⟨⟨s, rfl, h1⟩, q, rfl, by simpa using h3⟩
      · rintro ⟨⟨s2, hs2, hne⟩, q2, hq2, hpos⟩
        cases Option.some.inj hs2
        cases Option.some.inj hq2
        refine ⟨⟨hne, ?_⟩, by simpa using hpos⟩
        exact ne_of_gt hpos

/-- Every outcome of the order workflow has status 401, 400 or 201. -/
theorem createOrder_statusCode (cfg : Config) (st : Store) (e : Event) :
    (createOrder cfg st e).1.statusCode = 401 ∨
    (createOrder cfg st e).1.statusCode = 400 ∨
    (createOrder cfg st e).1.statusCode = 201 := by
  unfold createOrder
  split
  · simp [mkResp]
  · split
    · rename_i token res r st2 tr heq
      unfold createOrderTry at heq
      split at heq
      · simp at heq
      · split at heq
        · simp at heq
        · split at heq
          · rcases heq with ⟨rfl, rfl⟩; simp [mkResp]
          · rcases heq with ⟨rfl, rfl⟩; simp [mkResp]
          · split at heq
            · rcases heq with ⟨rfl, rfl⟩; simp [mkResp]
            · split at heq
              · rcases heq with ⟨rfl, rfl⟩; simp [mkResp]
              · split at heq
                · simp at heq
                · rcases heq with ⟨rfl, rfl⟩; simp [mkResp]
    · simp [mkResp]

end CloudBackend

/-! ## Shared concrete instances for witnesses -/

namespace CloudBackend

/-- A config whose verifier accepts every token as the user `alice` and
whose collaborator calls all succeed. -/
def cfgOk : Config := { getUser := fun _ => .ok { Username := "alice" } }

/-- A config whose verifier rejects every token. -/
def cfgRej : Config :=
  { getUser := fun _ => .error "Error: NotAuthorizedException: Access Token has expired" }

/-- The items of the example in the specification, section 8. -/
def itemsEx : List ItemInput :=
  [{ id := some "p1", quantity := some 2, price := some 5 },
   { id := some "p2", quantity := some 1, price := none }]

/-- An order-creation event carrying a well-formed bearer header and the
example items. -/
def eOrderEx : Event :=
  { httpMethod := "POST", resource := "/orders",
    headers := [("Authorization", "Bearer tok")],
    body := .ok { items := .arr itemsEx } }

/-- An items array whose first element is valid and whose second has
quantity 0. -/
def itemsBad : List ItemInput :=
  [{ id := some "p1", quantity := some 2, price := some 5 },
   { id := some "p2", quantity := some 0, price := none }]

/-- An order-creation event with a well-formed bearer header and the
partially invalid items array. -/
def eOrderBad : Event :=
  { httpMethod := "POST", resource := "/orders",
    headers := [("Authorization", "Bearer tok")],
    body := .ok { items := .arr itemsBad } }

/-- The order record assembled at lines 174-185 for a given config,
principal and raw items. -/
def builtOrder (cfg : Config) (u : CognitoUser) (l : List ItemInput) : OrderRecord :=
  { id := cfg.newUuid, userId := u.Username, items := l.map normalizeItem,
    createdAt := cfg.now, status := "pending" }

end CloudBackend

/-! ## The claims -/

namespace CloudBackend

/-- C4: when the authorization header is absent (under both accepted key
spellings) or its value does not start with the bearer scheme, the order
workflow answers 401 with body error `Authorization token required`, the
store is untouched, and the trace shows the external verifier was never
invoked. -/
theorem missing_bearer_header_rejected_without_verifier
    (cfg : Config) (st : Store) (e : Event)
    (h : authHeaderVal e = none ∨
         ∃ s, authHeaderVal e = some s ∧ strStarts s "Bearer " = false) :
    createOrder cfg st e =
      (mkResp 401 (.errMsg "Authorization token required"), st, {}) ∧
    (createOrder cfg st e).2.2.verifierCalled = false := by
  have hbc := bearerCheck_eq_none h
  constructor <;> simp [createOrder, hbc]

/-- Witness for C4 at a concrete event with no headers at all. -/
theorem missing_bearer_header_rejected_without_verifier_witness :
    createOrder cfgOk {} { httpMethod := "POST", resource := "/orders" } =
      (mkResp 401 (.errMsg "Authorization token required"), {}, {}) :=
  (missing_bearer_header_rejected_without_verifier cfgOk {}
    { httpMethod := "POST", resource := "/orders" } (Or.inl (by decide))).1

/-- C9: an OPTIONS request short-circuits before routing: for every
method-OPTIONS event, whatever its path, headers and body, the dispatcher
answers 200 with the preflight header set (base headers plus
allowed-methods and allowed-headers), the store is unchanged, and no
collaborator call is traced. -/
theorem options_preflight_short_circuit
    (cfg : Config) (st : Store) (e : Event) (h : e.httpMethod = "OPTIONS") :
    handler cfg st e =
      ({ statusCode := 200, headers := preflightHeaders, body := .emptyObj },
       st, {}) := by
  simp [handler, h, preflightResp]

/-- Witness for C9: a concrete OPTIONS probe on an arbitrary path with a
malformed body. -/
theorem options_preflight_short_circuit_witness :
    handler cfgOk {}
      { httpMethod := "OPTIONS", resource := "/nowhere",
        headers := [("Authorization", "bogus")], body := .error "bad json" } =
      ({ statusCode := 200, headers := preflightHeaders, body := .emptyObj },
       {}, {}) :=
  options_preflight_short_circuit cfgOk {}
    { httpMethod := "OPTIONS", resource := "/nowhere",
      headers := [("Authorization", "bogus")], body := .error "bad json" } rfl

/-- C2: under a verified credential, one bad element (falsy id, missing
quantity, or quantity at most 0) fails the whole order with 400 and the
fixed message, the store is unchanged, and the trace shows the put of the
store was never invoked — whatever the other elements look like. -/
theorem invalid_item_rejects_whole_order_without_put
    (cfg : Config) (st : Store) (e : Event) (token : String)
    (u : CognitoUser) (b : ParsedBody) (l : List ItemInput)
    (hbc : bearerCheck e = some token)
    (hv : verifyToken cfg token = .ok u)
    (hb : e.body = .ok b)
    (hi : b.items = .arr l)
    (hbad : ∃ i ∈ l,
       truthyStr i.id = false ∨ i.quantity = none ∨ i.quantity.getD 0 ≤ 0) :
    createOrder cfg st e =
      (mkResp 400 (.errMsg "Each item must have productId and positive quantity"),
       st, { verifierCalled := true }) := by
  obtain ⟨i, hmem, hviol⟩ := hbad
  have hne : l.isEmpty = false := by
    cases l with
    | nil => cases hmem
    | cons a t => rfl
  have hany : l.any itemInvalid = true :=
    List.any_eq_true.mpr ⟨i, hmem, (itemInvalid_eq_true_iff i).mpr hviol⟩
  simp [createOrder, hbc, createOrderTry, hv, hb, hi, hne, hany]

/-- Witness for C2: a valid first element does not save the order when
the second element has quantity 0; the put stays uninvoked. -/
theorem invalid_item_rejects_whole_order_without_put_witness :
    createOrder cfgOk {} eOrderBad =
      (mkResp 400 (.errMsg "Each item must have productId and positive quantity"),
       {}, { verifierCalled := true }) :=
  invalid_item_rejects_whole_order_without_put cfgOk {} eOrderBad "tok"
    { Username := "alice" } { items := .arr itemsBad } itemsBad
    (by decide) rfl rfl rfl
    ⟨{ id := some "p2", quantity := some 0, price := none }, by decide, by decide⟩

/-- C3: with a verified credential and a non-empty, all-valid items
array, the workflow answers 201 with the constructed order: items in
input order mapped through the normalization (id kept as text, quantity
as number, missing or falsy price read as 0, total = price times
quantity) and status `pending`; the record is appended to the store. -/
theorem valid_order_creation_builds_normalized_record
    (cfg : Config) (st : Store) (e : Event) (token : String)
    (u : CognitoUser) (b : ParsedBody) (l : List ItemInput)
    (hbc : bearerCheck e = some token)
    (hv : verifyToken cfg token = .ok u)
    (hb : e.body = .ok b)
    (hi : b.items = .arr l)
    (hne : l ≠ [])
    (hvalid : ∀ i ∈ l, itemInvalid i = false)
    (hput : cfg.putOrderResult = .ok ()) :
    createOrder cfg st e =
      (mkResp 201 (.order (builtOrder cfg u l)),
       { st with orders := st.orders ++ [builtOrder cfg u l] },
       { verifierCalled := true, putOrderCalled := true }) ∧
    (∀ i ∈ l, (normalizeItem i).totalPrice =
       (normalizeItem i).price * (normalizeItem i).quantity) ∧
    (∀ i ∈ l, (i.price = none ∨ i.price = some 0) →
       (normalizeItem i).price = 0) := by
  have hne2 : l.isEmpty = false := by
    cases l with
    | nil => exact absurd rfl hne
    | cons a t => rfl
  have hany : l.any itemInvalid = false := by
    rw [List.any_eq_false]
    intro i hi2
    simp [hvalid i hi2]
  refine ⟨?_, ?_, ?_⟩
  · simp [createOrder, hbc, createOrderTry, hv, hb, hi, hne2, hany, hput, builtOrder]
  · intro i _
    rfl
  · intro i _ hp
    rcases hp with hp | hp <;> simp [normalizeItem, jsOrZero, hp]

/-- Witness for C3 at the example of the specification: two items, the
second without a price; the totals come out as 10 and 0 and the status
is `pending`. -/
theorem valid_order_creation_builds_normalized_record_witness :
    (createOrder cfgOk {} eOrderEx).1 =
      mkResp 201 (.order (builtOrder cfgOk { Username := "alice" } itemsEx)) ∧
    (itemsEx.map normalizeItem).map OrderLine.totalPrice = [10, 0] ∧
    (itemsEx.map normalizeItem).map OrderLine.id = ["p1", "p2"] ∧
    (builtOrder cfgOk { Username := "alice" } itemsEx).status = "pending" := by
  refine ⟨?_, ?_, ?_, rfl⟩
  · have h := (valid_order_creation_builds_normalized_record cfgOk {} eOrderEx
      "tok" { Username := "alice" } { items := .arr itemsEx } itemsEx
      (by decide) rfl rfl rfl (by decide) (by decide) rfl).1
    rw [h]
  · norm_num [itemsEx, normalizeItem, jsOrZero]
  · norm_num [itemsEx, normalizeItem]

end CloudBackend

namespace CloudBackend

/-- C1: past the bearer gate, every failure raised inside the workflow —
a verifier rejection (the empty credential included), a body parse
failure, and even a failing put of the store on an order that passed
validation — is caught locally and reported as 401 with error
`Unauthorized` and the raised message as details; and on the orders
route the dispatcher never produces its top-level 500 result. -/
theorem createOrder_catches_workflow_errors_as_401
    (cfg : Config) (st : Store) (e : Event) :
    (∀ token, bearerCheck e = some token →
      (∀ m, verifyToken cfg token = .error m →
        (createOrder cfg st e).1 = mkResp 401 (.errDetails "Unauthorized" m)) ∧
      (∀ u m, verifyToken cfg token = .ok u → e.body = .error m →
        (createOrder cfg st e).1 = mkResp 401 (.errDetails "Unauthorized" m)) ∧
      (∀ u b l m, verifyToken cfg token = .ok u → e.body = .ok b →
        b.items = .arr l → l.isEmpty = false → l.any itemInvalid = false →
        cfg.putOrderResult = .error m →
        (createOrder cfg st e).1 = mkResp 401 (.errDetails "Unauthorized" m))) ∧
    (e.httpMethod = "POST" → e.resource = "/orders" →
      (handler cfg st e).1.statusCode ≠ 500) := by
  constructor
  · intro token hbc
    refine ⟨?_, ?_, ?_⟩
    · intro m hm
      simp [createOrder, hbc, createOrderTry, hm]
    · intro u m hu hm
      simp [createOrder, hbc, createOrderTry, hu, hm]
    · intro u b l m hu hb hi hne hany hput
      simp [createOrder, hbc, createOrderTry, hu, hb, hi, hne, hany, hput]
  · intro hm hr
    have hs := createOrder_statusCode cfg st e
    rcases hc : createOrder cfg st e with ⟨r, st2, tr⟩
    rw [hc] at hs
    simp only at hs
    simp only [handler, hm, hr]
    norm_num
    rw [hc]
    rcases hs with h | h | h <;> simp [h]

/-- Witness for C1: a rejecting verifier yields the 401 Unauthorized
result with the rejection message, and the dispatcher answer is not a
500. -/
theorem createOrder_catches_workflow_errors_as_401_witness :
    (createOrder cfgRej {} eOrderEx).1 =
      mkResp 401 (.errDetails "Unauthorized"
        "Invalid token: Error: NotAuthorizedException: Access Token has expired") ∧
    (handler cfgRej {} eOrderEx).1.statusCode ≠ 500 := by
  have h := createOrder_catches_workflow_errors_as_401 cfgRej {} eOrderEx
  exact ⟨(h.1 "tok" (by decide)).1 _ rfl, h.2 rfl rfl⟩

/-- C5 amended: a malformed body is not reported as a 400 request-shape
error.  In product creation the parse failure escapes to the dispatcher
boundary, which answers 500 `Internal server error` with the parse
message as details; in order creation (past the bearer gate, with a
verified credential) it is swallowed by the workflow catch and answers
401 `Unauthorized` with the parse message as details. -/
theorem malformed_body_500_products_401_orders
    (cfg : Config) (st : Store) (e : Event) (m : String) :
    (e.httpMethod = "POST" → e.resource = "/products" → e.body = .error m →
      handler cfg st e =
        (mkResp 500 (.errDetails "Internal server error" m), st, {})) ∧
    (∀ token u, bearerCheck e = some token → verifyToken cfg token = .ok u →
      e.body = .error m →
      (createOrder cfg st e).1 = mkResp 401 (.errDetails "Unauthorized" m)) := by
  constructor
  · intro hm hr hb
    simp [handler, hm, hr, createProduct, hb]
  · intro token u hbc hu hb
    simp [createOrder, hbc, createOrderTry, hu, hb]

/-- A product-creation event whose body fails to parse. -/
def eProdBadBody : Event :=
  { httpMethod := "POST", resource := "/products",
    body := .error "Unexpected token u in JSON at position 0" }

/-- An order-creation event with a well-formed bearer header whose body
fails to parse. -/
def eOrderBadBody : Event :=
  { httpMethod := "POST", resource := "/orders",
    headers := [("Authorization", "Bearer tok")],
    body := .error "Unexpected token u in JSON at position 0" }

/-- Counterexample to C5 as stated: at these concrete malformed-body
requests the statuses are 500 (product creation) and 401 (order
creation), not 400. -/
theorem malformed_body_not_400_counterexample :
    (handler cfgOk {} eProdBadBody).1.statusCode = 500 ∧
    ¬ (handler cfgOk {} eProdBadBody).1.statusCode = 400 ∧
    (handler cfgOk {} eOrderBadBody).1.statusCode = 401 ∧
    ¬ (handler cfgOk {} eOrderBadBody).1.statusCode = 400 := by
  exact ⟨by decide, by decide, by decide, by decide⟩

/-- Witness for the amended C5 at the two concrete events. -/
theorem malformed_body_500_products_401_orders_witness :
    handler cfgOk {} eProdBadBody =
      (mkResp 500 (.errDetails "Internal server error"
        "Unexpected token u in JSON at position 0"), {}, {}) ∧
    (createOrder cfgOk {} eOrderBadBody).1 =
      mkResp 401 (.errDetails "Unauthorized"
        "Unexpected token u in JSON at position 0") := by
  constructor
  · exact (malformed_body_500_products_401_orders cfgOk {} eProdBadBody
      "Unexpected token u in JSON at position 0").1 rfl rfl rfl
  · exact (malformed_body_500_products_401_orders cfgOk {} eOrderBadBody
      "Unexpected token u in JSON at position 0").2 "tok"
      { Username := "alice" } (by decide) rfl rfl

end CloudBackend

namespace CloudBackend

/-- The product record assembled at lines 99-106 for a given config and
parsed body. -/
def builtProduct (cfg : Config) (b : ParsedBody) : ProductRecord :=
  { id := cfg.newUuid, name := b.name.getD "", price := b.price.getD 0,
    description := b.description.getD "",
    imageUrl := if truthyStr b.imageUrl then b.imageUrl else none,
    createdAt := cfg.now }

/-- C6 amended: the gate of line 91 tests truthiness, not mere presence.
When name, price and description are all truthy, the result is 201 with
the generated id, the numeric price, imageUrl none when absent or falsy,
and the record is persisted; when any of the three is falsy — absent, an
empty string, or the number 0 — the result is the 400 error, even if the
field is present. -/
theorem product_creation_truthiness_gate
    (cfg : Config) (st : Store) (e : Event) (b : ParsedBody)
    (hb : e.body = .ok b) :
    (truthyStr b.name = true → truthyNum b.price = true →
     truthyStr b.description = true → cfg.putProductResult = .ok () →
      createProduct cfg st e =
        (.ok (mkResp 201 (.product (builtProduct cfg b))),
         { st with products := st.products ++ [builtProduct cfg b] },
         { putProductCalled := true })) ∧
    ((truthyStr b.name = false ∨ truthyNum b.price = false ∨
      truthyStr b.description = false) →
      createProduct cfg st e =
        (.ok (mkResp 400 (.errMsg "Missing name, price, or description")),
         st, {})) ∧
    (b.imageUrl = none → (builtProduct cfg b).imageUrl = none) := by
  refine ⟨?_, ?_, ?_⟩
  · intro h1 h2 h3 hput
    simp [createProduct, hb, h1, h2, h3, hput, builtProduct]
  · intro hfal
    rcases hfal with h | h | h <;> simp [createProduct, hb, h]
  · intro hiu
    simp [builtProduct, hiu, truthyStr]

/-- The example product body of the specification, section 8. -/
def bodyProdEx : ParsedBody :=
  { name := some "A", price := some 10, description := some "d" }

/-- A product-creation event carrying the example body. -/
def eProdEx : Event :=
  { httpMethod := "POST", resource := "/products", body := .ok bodyProdEx }

/-- The example body with the price omitted. -/
def bodyProdNoPrice : ParsedBody := { name := some "A", description := some "d" }

/-- A product-creation event with the price omitted. -/
def eProdNoPrice : Event :=
  { httpMethod := "POST", resource := "/products", body := .ok bodyProdNoPrice }

/-- Witness for the amended C6: the example body yields 201 with price
10 and imageUrl none; omitting the price yields 400. -/
theorem product_creation_truthiness_gate_witness :
    createProduct cfgOk {} eProdEx =
      (.ok (mkResp 201 (.product (builtProduct cfgOk bodyProdEx))),
       { products := [builtProduct cfgOk bodyProdEx] },
       { putProductCalled := true }) ∧
    (builtProduct cfgOk bodyProdEx).price = 10 ∧
    (builtProduct cfgOk bodyProdEx).imageUrl = none ∧
    createProduct cfgOk {} eProdNoPrice =
      (.ok (mkResp 400 (.errMsg "Missing name, price, or description")),
       {}, {}) := by
  refine ⟨?_, rfl, rfl, ?_⟩
  · exact (product_creation_truthiness_gate cfgOk {} eProdEx bodyProdEx rfl).1
      (by decide) (by decide) (by decide) rfl
  · exact (product_creation_truthiness_gate cfgOk {} eProdNoPrice
      bodyProdNoPrice rfl).2.1 (Or.inr (Or.inl (by decide)))

/-- A product body whose price is present but equals 0. -/
def bodyPriceZero : ParsedBody :=
  { name := some "A", price := some 0, description := some "d" }

/-- A product-creation event carrying the price-0 body. -/
def ePriceZero : Event :=
  { httpMethod := "POST", resource := "/products", body := .ok bodyPriceZero }

/-- Counterexample to C6 as stated: here name, price and description are
all present, yet the result is the 400 error, because the gate tests
truthiness and the number 0 is falsy. -/
theorem product_price_present_but_zero_counterexample :
    bodyPriceZero.price.isSome = true ∧
    createProduct cfgOk {} ePriceZero =
      (.ok (mkResp 400 (.errMsg "Missing name, price, or description")),
       {}, {}) :=
  ⟨rfl, rfl⟩

end CloudBackend

namespace CloudBackend

/-- C7 amended: acceptance of an order submission requires, of every
element, a truthy id and a quantity that is present, truthy and
strictly positive as a number — integrality is not required; a
fractional positive quantity is accepted. -/
theorem order_quantity_positive_number_gate
    (cfg : Config) (st : Store) (e : Event) (token : String)
    (u : CognitoUser) (b : ParsedBody) (l : List ItemInput)
    (hbc : bearerCheck e = some token)
    (hv : verifyToken cfg token = .ok u)
    (hb : e.body = .ok b)
    (hi : b.items = .arr l)
    (hne : l ≠ [])
    (hput : cfg.putOrderResult = .ok ()) :
    (createOrder cfg st e).1.statusCode = 201 ↔
      ∀ i ∈ l, (∃ s, i.id = some s ∧ s ≠ "") ∧
               ∃ q, i.quantity = some q ∧ 0 < q := by
  have hne2 : l.isEmpty = false := by
    cases l with
    | nil => exact absurd rfl hne
    | cons a t => rfl
  constructor
  · intro h201 i hmem
    by_contra hcon
    have hinv : itemInvalid i = true := by
      rcases hbool : itemInvalid i with _ | _
      · exact absurd ((itemInvalid_eq_false_iff i).mp hbool) hcon
      · rfl
    have hany : l.any itemInvalid = true :=
      List.any_eq_true.mpr ⟨i, hmem, hinv⟩
    simp [createOrder, hbc, createOrderTry, hv, hb, hi, hne2, hany, mkResp] at h201
  · intro hall
    have hany : l.any itemInvalid = false := by
      rw [List.any_eq_false]
      intro i hmem
      simp [(itemInvalid_eq_false_iff i).mpr (hall i hmem)]
    simp [createOrder, hbc, createOrderTry, hv, hb, hi, hne2, hany, hput, mkResp]

/-- Three halves, a positive non-integral rational. -/
def threeHalves : ℚ := ⟨3, 2, by norm_num, by norm_num⟩

/-- An items array whose single element has the fractional quantity 3/2. -/
def itemsFrac : List ItemInput :=
  [{ id := some "p1", quantity := some threeHalves, price := none }]

/-- An order-creation event submitting the fractional quantity. -/
def eOrderFrac : Event :=
  { httpMethod := "POST", resource := "/orders",
    headers := [("Authorization", "Bearer tok")],
    body := .ok { items := .arr itemsFrac } }

/-- Counterexample to C7 as stated: quantity 3/2 is not an integer, yet
the submission is accepted with status 201 — the check of line 165 only
requires a truthy, positive number. -/
theorem fractional_quantity_accepted_counterexample :
    threeHalves.den ≠ 1 ∧ 0 < threeHalves ∧
    (createOrder cfgOk {} eOrderFrac).1.statusCode = 201 :=
  ⟨by decide, by decide, by decide⟩

/-- Witness for the amended C7 in both directions: the fractional-
quantity submission satisfies the positivity condition and lands on 201,
while a quantity-0 submission fails the condition and does not. -/
theorem order_quantity_positive_number_gate_witness :
    ((createOrder cfgOk {} eOrderFrac).1.statusCode = 201 ↔
      ∀ i ∈ itemsFrac, (∃ s, i.id = some s ∧ s ≠ "") ∧
               ∃ q, i.quantity = some q ∧ 0 < q) ∧
    ((createOrder cfgOk {} eOrderBad).1.statusCode = 201 ↔
      ∀ i ∈ itemsBad, (∃ s, i.id = some s ∧ s ≠ "") ∧
               ∃ q, i.quantity = some q ∧ 0 < q) := by
  constructor
  · exact order_quantity_positive_number_gate cfgOk {} eOrderFrac "tok"
      { Username := "alice" } { items := .arr itemsFrac } itemsFrac
      (by decide) rfl rfl rfl (by decide) rfl
  · exact order_quantity_positive_number_gate cfgOk {} eOrderBad "tok"
      { Username := "alice" } { items := .arr itemsBad } itemsBad
      (by decide) rfl rfl rfl (by decide) rfl

end CloudBackend

namespace CloudBackend

/-- C8 amended: header lookup checks exactly the two key spellings
`Authorization` and `authorization` (any other casing of the key is not
found); the bearer scheme test of line 137 is case-sensitive, so a value
that does not start with the exact text `Bearer ` — a lowercase
`bearer ...` included — is rejected with 401
`Authorization token required` before verification; only the stripping
regex of line 146 is case-insensitive, shown on a mixed-case prefix. -/
theorem auth_header_exact_keys_case_sensitive_scheme
    (cfg : Config) (st : Store) :
    (∀ e k v, e.headers = [(k, v)] → k ≠ "Authorization" →
       k ≠ "authorization" → authHeaderVal e = none) ∧
    (∀ e s, authHeaderVal e = some s → strStarts s "Bearer " = false →
       createOrder cfg st e =
         (mkResp 401 (.errMsg "Authorization token required"), st, {})) ∧
    stripBearer "bEaReR   tok" = "tok" := by
  refine ⟨?_, ?_, by decide⟩
  · intro e k v hh h1 h2
    have e1 : (("Authorization" : String) == k) = false :=
      beq_eq_false_iff_ne.mpr (Ne.symm h1)
    have e2 : (("authorization" : String) == k) = false :=
      beq_eq_false_iff_ne.mpr (Ne.symm h2)
    simp [authHeaderVal, hh, List.lookup, e1, e2, jsOrStr]
  · intro e s hs hpre
    have hbc := bearerCheck_eq_none (Or.inr ⟨s, hs, hpre⟩)
    simp [createOrder, hbc]

/-- An order-creation event whose scheme keyword is lowercase. -/
def eLowerBearer : Event :=
  { httpMethod := "POST", resource := "/orders",
    headers := [("authorization", "bearer tok123")],
    body := .ok { items := .arr itemsEx } }

/-- An order-creation event whose header key is upper-cased. -/
def eUpperKey : Event :=
  { httpMethod := "POST", resource := "/orders",
    headers := [("AUTHORIZATION", "Bearer tok123")],
    body := .ok { items := .arr itemsEx } }

/-- Counterexample to C8 as stated: the lowercase scheme `bearer tok123`
is rejected with 401 `Authorization token required` and the verifier is
never invoked — it does not reach verification. -/
theorem lowercase_bearer_rejected_counterexample :
    createOrder cfgOk {} eLowerBearer =
      (mkResp 401 (.errMsg "Authorization token required"), {}, {}) ∧
    (createOrder cfgOk {} eLowerBearer).2.2.verifierCalled = false :=
  ⟨by decide, by decide⟩

/-- Witness for the amended C8 at concrete inputs: an upper-cased key is
not found, and the lowercase scheme value is rejected before
verification. -/
theorem auth_header_exact_keys_case_sensitive_scheme_witness :
    authHeaderVal eUpperKey = none ∧
    createOrder cfgOk {} eLowerBearer =
      (mkResp 401 (.errMsg "Authorization token required"), {}, {}) := by
  have h := auth_header_exact_keys_case_sensitive_scheme cfgOk {}
  exact ⟨h.1 eUpperKey "AUTHORIZATION" "Bearer tok123" rfl (by decide) (by decide),
         h.2.1 eLowerBearer "bearer tok123" (by decide) (by decide)⟩

end CloudBackend

namespace CloudBackend

/-- A 201 outcome of product creation is exactly a built product record,
appended to the products table by the put. -/
theorem createProduct_201_inv (cfg : Config) (st : Store) (e : Event)
    (r : Response) (st2 : Store) (tr : Trace)
    (h : createProduct cfg st e = (.ok r, st2, tr))
    (h201 : r.statusCode = 201) :
    ∃ p, r = mkResp 201 (.product p) ∧ st2.products = st.products ++ [p] := by
  unfold createProduct at h
  split at h
  · simp at h
  · split at h
    · simp only [Prod.mk.injEq, Except.ok.injEq] at h
      obtain ⟨h1, h2, h3⟩ := h
      rw [← h1] at h201
      simp [mkResp] at h201
    · rcases hput : cfg.putProductResult with m | u
      · rw [hput] at h
        simp at h
      · rw [hput] at h
        simp only [Prod.mk.injEq, Except.ok.injEq] at h
        obtain ⟨h1, h2, h3⟩ := h
        exact ⟨_, h1.symm, by rw [← h2]⟩

/-- A 201 outcome of the try block is exactly a built order record,
appended to the orders table by the put. -/
theorem createOrderTry_201_inv (cfg : Config) (st : Store) (token : String)
    (body : Except String ParsedBody) (r : Response) (st2 : Store) (tr : Trace)
    (h : createOrderTry cfg st token body = (.ok (r, st2), tr))
    (h201 : r.statusCode = 201) :
    ∃ o, r = mkResp 201 (.order o) ∧ st2.orders = st.orders ++ [o] := by
  unfold createOrderTry at h
  split at h
  · simp at h
  · split at h
    · simp at h
    · split at h
      · simp only [Prod.mk.injEq, Except.ok.injEq] at h
        obtain ⟨⟨h1, h2⟩, h3⟩ := h
        rw [← h1] at h201
        simp [mkResp] at h201
      · simp only [Prod.mk.injEq, Except.ok.injEq] at h
        obtain ⟨⟨h1, h2⟩, h3⟩ := h
        rw [← h1] at h201
        simp [mkResp] at h201
      · split at h
        · simp only [Prod.mk.injEq, Except.ok.injEq] at h
          obtain ⟨⟨h1, h2⟩, h3⟩ := h
          rw [← h1] at h201
          simp [mkResp] at h201
        · split at h
          · simp only [Prod.mk.injEq, Except.ok.injEq] at h
            obtain ⟨⟨h1, h2⟩, h3⟩ := h
            rw [← h1] at h201
            simp [mkResp] at h201
          · split at h
            · simp at h
            · simp only [Prod.mk.injEq, Except.ok.injEq] at h
              obtain ⟨⟨h1, h2⟩, h3⟩ := h
              exact ⟨_, h1.symm, by rw [← h2]⟩

/-- A 201 outcome of the order workflow is exactly a built order record,
appended to the orders table. -/
theorem createOrder_201_inv (cfg : Config) (st : Store) (e : Event)
    (r : Response) (st2 : Store) (tr : Trace)
    (h : createOrder cfg st e = (r, st2, tr))
    (h201 : r.statusCode = 201) :
    ∃ o, r = mkResp 201 (.order o) ∧ st2.orders = st.orders ++ [o] := by
  unfold createOrder at h
  split at h
  · simp only [Prod.mk.injEq] at h
    obtain ⟨h1, -, -⟩ := h
    rw [← h1] at h201
    simp [mkResp] at h201
  · rename_i token htoken
    rcases htry : createOrderTry cfg st token e.body with ⟨res, tr3⟩
    rw [htry] at h
    rcases res with m | ⟨rr, st3⟩
    · simp only [Prod.mk.injEq] at h
      obtain ⟨h1, -, -⟩ := h
      rw [← h1] at h201
      simp [mkResp] at h201
    · simp only [Prod.mk.injEq] at h
      obtain ⟨h1, h2, h3⟩ := h
      subst h1
      subst h2
      exact createOrderTry_201_inv cfg st token e.body rr st3 tr3 htry h201

/-- C10: a successful creation (status 201) returns exactly the record
the put appended to the store, and an immediate listing of that
collection returns the stored records unchanged, the new record
included. -/
theorem creation_listing_round_trip
    (cfg cfg2 : Config) (st : Store) (e : Event) :
    (∀ r st2 tr, createProduct cfg st e = (.ok r, st2, tr) →
       r.statusCode = 201 → cfg2.scanProductsResult = .ok () →
       ∃ p, r.body = .product p ∧ p ∈ st2.products ∧
         (getAllProducts cfg2 st2).1 =
           .ok (mkResp 200 (.productList st2.products))) ∧
    (∀ r st2 tr, createOrder cfg st e = (r, st2, tr) →
       r.statusCode = 201 → cfg2.scanOrdersResult = .ok () →
       ∃ o, r.body = .order o ∧ o ∈ st2.orders ∧
         (getAllOrders cfg2 st2).1 =
           .ok (mkResp 200 (.orderList st2.orders))) := by
  constructor
  · intro r st2 tr hc h201 hscan
    obtain ⟨p, hr, hst⟩ := createProduct_201_inv cfg st e r st2 tr hc h201
    refine ⟨p, by rw [hr]; rfl, ?_, ?_⟩
    · rw [hst]
      simp
    · simp [getAllProducts, hscan]
  · intro r st2 tr hc h201 hscan
    obtain ⟨o, hr, hst⟩ := createOrder_201_inv cfg st e r st2 tr hc h201
    refine ⟨o, by rw [hr]; rfl, ?_, ?_⟩
    · rw [hst]
      simp
    · simp [getAllOrders, hscan]

/-- Witness for C10 at the concrete example product creation. -/
theorem creation_listing_round_trip_witness :
    ∃ p, (mkResp 201 (.product (builtProduct cfgOk bodyProdEx))).body =
           .product p ∧
      p ∈ ({ products := [builtProduct cfgOk bodyProdEx] } : Store).products ∧
      (getAllProducts cfgOk
         ({ products := [builtProduct cfgOk bodyProdEx] } : Store)).1 =
        .ok (mkResp 200 (.productList
          ({ products := [builtProduct cfgOk bodyProdEx] } : Store).products)) :=
  (creation_listing_round_trip cfgOk cfgOk {} eProdEx).1
    (mkResp 201 (.product (builtProduct cfgOk bodyProdEx)))
    { products := [builtProduct cfgOk bodyProdEx] }
    { putProductCalled := true } rfl rfl rfl

end CloudBackend
